import Mathlib

/-!
Verification of the QR-code batch generator script `generate_x24_qr_with-title.py`.

The script is embedded shallowly:

* machine integers are `Nat` (all quantities in the script are non-negative
  Python ints, and Python ints are unbounded, so no modular wrap is needed);
* the Python `set` of generated strings is a `Finset String`;
* the randomness consumed by `random.choice` is an explicit oracle
  `choices : Nat → Nat → Fin characters.length` giving, for each loop
  iteration and each character position, the index picked from the alphabet;
* the external libraries (qrcode, PIL) enter only through the sizes they
  report: a `Metrics` record holds the measured QR image size and the
  measured text bounding-box size for a given data string;
* exceptions raised while encoding / composing / saving one item are modelled
  by an oracle `raises : String → Bool`; the `try/except` of
  `create_qr_with_title` makes the embedded function total;
* the filesystem is a record of a set of directories and a list of written
  files, and the run additionally produces an event trace (mkdir, prints,
  saves, logged errors) mirroring the observable side effects;
* the unbounded `while` loop of `__main__` is embedded with explicit fuel:
  `none` means the loop has not exited within the given number of iterations.
-/

/-! ## Configuration constants (source lines 8-23) -/

def NUM_CODES : Nat := 24

def STRING_LENGTH : Nat := 5

def OUTPUT_DIR : String := "qr_codes_with_titles"

def IMAGE_FORMAT : String := "PNG"

def QR_BOX_SIZE : Nat := 10

def QR_BORDER : Nat := 4

def PADDING : Nat := 20

def TEXT_PADDING_TOP : Nat := 10

def FONT_SIZE : Nat := 25

/-! ## The alphabet (source line 44): `string.ascii_uppercase + string.digits` -/

def ascii_uppercase : List Char :=
  ['A','B','C','D','E','F','G','H','I','J','K','L','M',
   'N','O','P','Q','R','S','T','U','V','W','X','Y','Z']

def ascii_digits : List Char := ['0','1','2','3','4','5','6','7','8','9']

def characters : List Char := ascii_uppercase ++ ascii_digits

/-- `generate_random_string` (source lines 42-45): joins `length` characters,
each obtained by `random.choice(characters)`.  The randomness is the explicit
oracle `choice`, giving the index chosen at each position. -/
def generate_random_string (length : Nat) (choice : Nat → Fin characters.length) : String :=
  String.mk ((List.range length).map (fun i => characters.get (choice i)))

/-- Filename sanitization (source line 116):
`"".join(c if c.isalnum() else "_" for c in random_str)`. -/
def sanitize (s : String) : String :=
  String.mk (s.data.map (fun c => if c.isAlphanum then c else '_'))

/-- Python `str.lower()` on the ASCII strings used here: lower-case each
character. -/
def str_lower (s : String) : String := String.mk (s.data.map Char.toLower)

/-- Output path construction (source line 117):
`os.path.join(OUTPUT_DIR, f"{safe_filename}.{IMAGE_FORMAT.lower()}")`.
`os.path.join` of a non-empty directory and a relative name inserts `/`. -/
def output_path (code : String) : String :=
  OUTPUT_DIR ++ "/" ++ sanitize code ++ "." ++ str_lower IMAGE_FORMAT

/-! ## Image composition (source lines 47-100) -/

/-- The geometry of one composed image: canvas size, QR paste origin and
text draw origin, as computed in source lines 76-91. -/
structure Layout where
  total_width : Nat
  total_height : Nat
  qr_x : Nat
  qr_y : Nat
  text_x : Nat
  text_y : Nat
deriving DecidableEq

/-- The layout arithmetic of `create_qr_with_title` (source lines 76-91),
as a function of the measured QR image size and measured text size. -/
def compose_layout (qr_width qr_height text_width text_height : Nat) : Layout :=
  let total_width := max qr_width text_width + 2 * PADDING
  let total_height := qr_height + TEXT_PADDING_TOP + text_height + 2 * PADDING
  let qr_x := (total_width - qr_width) / 2
  let qr_y := PADDING
  let text_x := (total_width - text_width) / 2
  let text_y := qr_y + qr_height + TEXT_PADDING_TOP
  ⟨total_width, total_height, qr_x, qr_y, text_x, text_y⟩

/-- The measurements supplied by the external libraries for a given data
string: the size of `qr.make_image(...)` (qrcode) and the size of the
`textbbox` bounding box of the string under the configured font (PIL). -/
structure Metrics where
  qrSize : String → Nat × Nat
  textSize : String → Nat × Nat

/-- The layout the composer produces for a data string under measurements
`m`: entirely determined by the measured sizes for that string. -/
def layout_of (m : Metrics) (s : String) : Layout :=
  compose_layout (m.qrSize s).1 (m.qrSize s).2 (m.textSize s).1 (m.textSize s).2

/-! ## Sanity lemmas about the alphabet -/

lemma characters_alnum : ∀ c ∈ characters, c.isAlphanum = true := by decide

lemma characters_length_pos : 0 < characters.length := by decide

lemma get_characters_mem (j : Fin characters.length) : characters.get j ∈ characters := by
  rcases j with ⟨v, hv⟩
  exact characters.get_mem v hv

/-- Every string produced by `generate_random_string` has the requested
length and draws every character from the alphabet. -/
lemma generate_random_string_valid (length : Nat) (choice : Nat → Fin characters.length) :
    (generate_random_string length choice).length = length ∧
    ∀ ch ∈ (generate_random_string length choice).data, ch ∈ characters := by
  constructor
  · simp [generate_random_string, String.length]
  · intro ch hch
    have hch2 : ch ∈ (List.range length).map (fun i => characters.get (choice i)) := hch
    obtain ⟨i, _, rfl⟩ := List.mem_map.mp hch2
    exact get_characters_mem (choice i)

/-! ## Filesystem, events, and the per-item composer -/

/-- The filesystem state visible to the script: the set of existing
directories and the list of image files written so far (path and the layout
of the saved image). -/
structure FS where
  dirs : Finset String
  files : List (String × Layout)
deriving DecidableEq

/-- `os.makedirs(OUTPUT_DIR, exist_ok=True)` (source line 106): creates the
directory if absent; with `exist_ok=True` an existing directory is left as
is and no error is raised (the function is total). Files are never touched. -/
def makedirs_exist_ok (fs : FS) (d : String) : FS :=
  { fs with dirs := insert d fs.dirs }

/-- Observable side effects of the run, in order. -/
inductive Event where
  | mkdir (d : String)
  | print (s : String)
  | save (path : String) (img : Layout)
  | logError (s : String)
deriving DecidableEq

def is_mkdir_event : Event → Bool
  | .mkdir _ => true
  | _ => false

def is_save_event : Event → Bool
  | .save _ _ => true
  | _ => false

/-- The body of the `try` block of `create_qr_with_title` (source lines
49-96): encode the QR code, measure text, compute the layout, save.  The
`raises` oracle says whether any of these steps raises an exception for the
given data string (encoding error, I/O error, unexpected exception); a
raised exception prevents the save. -/
def create_body (m : Metrics) (raises : String → Bool) (data_string : String) :
    Except String Layout :=
  let qr_size := m.qrSize data_string
  let text_size := m.textSize data_string
  let layout := compose_layout qr_size.1 qr_size.2 text_size.1 text_size.2
  if raises data_string then Except.error "exception while encoding, composing or saving"
  else Except.ok layout

/-- `create_qr_with_title` (source lines 47-100): the whole body is wrapped
in `try/except Exception`, so the function is total.  On success the file is
written and a success line printed; on any exception the error is logged,
an error line printed, and nothing is written.  Returns the updated
filesystem, the layout of the saved image (`none` if the item was skipped),
and the emitted events. -/
def create_qr_with_title (m : Metrics) (raises : String → Bool)
    (data_string filename : String) (fs : FS) : FS × Option Layout × List Event :=
  match create_body m raises data_string with
  | Except.ok layout =>
      ({ fs with files := fs.files ++ [(filename, layout)] }, some layout,
       [Event.save filename layout, Event.print ("Successfully created: " ++ filename)])
  | Except.error e =>
      (fs, none,
       [Event.logError ("Failed to create QR code for " ++ data_string ++ ": " ++ e),
        Event.print ("Error processing " ++ data_string ++ ": " ++ e)])

/-! ## The main loop (source lines 109-122) -/

/-- State of the `while` loop: the Python set `generated_strings`, the
filesystem, and the event trace so far. -/
structure LoopState where
  generated_strings : Finset String
  fs : FS
  trace : List Event
deriving DecidableEq

/-- Condition of the safety break (source line 120):
`len(generated_strings) > NUM_CODES * 2 and len(generated_strings) < NUM_CODES`,
with the requested count as a parameter. -/
def safety_break_condition (numCodes card : Nat) : Bool :=
  decide (numCodes * 2 < card) && decide (card < numCodes)

/-- One iteration of the loop body before the safety-break test (source
lines 112-118): sample a string; if it is new, add it to the set, build the
sanitized output path and run `create_qr_with_title` on it. -/
def loop_body (choices : Nat → Nat → Fin characters.length) (raises : String → Bool)
    (m : Metrics) (i : Nat) (st : LoopState) : LoopState :=
  let random_str := generate_random_string STRING_LENGTH (choices i)
  if random_str ∈ st.generated_strings then st
  else
    let r := create_qr_with_title m raises random_str (output_path random_str) st.fs
    { generated_strings := insert random_str st.generated_strings,
      fs := r.1,
      trace := st.trace ++ r.2.2 }

/-- The `while` loop (source lines 111-122), with explicit fuel: `none`
means the loop has not exited within `fuel` iterations.  Iteration `i`
consumes the random choices `choices i`.  After the body, the safety break
is tested exactly as written in the source. -/
def mainLoopFull (numCodes : Nat) (choices : Nat → Nat → Fin characters.length)
    (raises : String → Bool) (m : Metrics) : Nat → Nat → LoopState → Option LoopState
  | 0, _, _ => none
  | fuel + 1, i, st =>
    if st.generated_strings.card < numCodes then
      let stNew := loop_body choices raises m i st
      if safety_break_condition numCodes stNew.generated_strings.card then
        some { stNew with trace := stNew.trace ++
          [Event.print "Warning: Difficulty generating unique strings. Stopping."] }
      else mainLoopFull numCodes choices raises m fuel (i + 1) stNew
    else some st

/-- Events emitted before the loop starts (source lines 106-107): the
directory creation and the banner line. -/
def init_trace (numCodes : Nat) : List Event :=
  [Event.mkdir OUTPUT_DIR,
   Event.print ("Generating " ++ toString numCodes ++ " QR codes in directory " ++
     OUTPUT_DIR ++ "...")]

/-- Loop state right before the first iteration (source lines 104-109). -/
def init_state (numCodes : Nat) (fs0 : FS) : LoopState :=
  { generated_strings := ∅,
    fs := makedirs_exist_ok fs0 OUTPUT_DIR,
    trace := init_trace numCodes }

/-- Result of a terminating run: the final loop state (with the final
summary line appended to the trace) and the number reported by that summary
line, `len(generated_strings)` (source line 125). -/
structure RunResult where
  state : LoopState
  summary : Nat
deriving DecidableEq

/-- The `__main__` block (source lines 104-125): create the output
directory, print the banner, run the loop, print the final summary.
`none` when the loop does not exit within `fuel` iterations. -/
def runMain (numCodes : Nat) (choices : Nat → Nat → Fin characters.length)
    (raises : String → Bool) (m : Metrics) (fuel : Nat) (fs0 : FS) : Option RunResult :=
  match mainLoopFull numCodes choices raises m fuel 0 (init_state numCodes fs0) with
  | none => none
  | some st =>
      some ⟨{ st with trace := st.trace ++
          [Event.print ("Finished generating " ++ toString st.generated_strings.card ++
            " QR codes.")] },
        st.generated_strings.card⟩

/-- The number of images actually written during the run: the number of
save events in the trace. -/
def successful_writes (r : RunResult) : Nat :=
  (r.state.trace.filter is_save_event).length

/-! ## Startup font selection and whole-program outcome (source lines 26-39) -/

/-- Result of the font-selection block at import time. -/
inductive StartupResult where
  | loadedArial
  | loadedDefault
  | exited (status : Nat)
deriving DecidableEq

/-- Python `exit()` with no argument raises `SystemExit(None)`; the
interpreter then terminates with process exit status 0. -/
def exit_builtin_status : Nat := 0

/-- The font-selection block (source lines 26-39): try `arial.ttf`; on
IOError fall back to `ImageFont.load_default()`; if that also fails, print
an error and call `exit()`. -/
def font_startup (arial_ok default_ok : Bool) : StartupResult :=
  if arial_ok then StartupResult.loadedArial
  else if default_ok then StartupResult.loadedDefault
  else StartupResult.exited exit_builtin_status

/-- Observable outcome of one whole program execution. -/
inductive ProgramOutcome where
  | abortedAtStartup (status : Nat)
  | completed (status : Nat) (r : RunResult)
  | diverged
deriving DecidableEq

def is_aborted : ProgramOutcome → Bool
  | .abortedAtStartup _ => true
  | _ => false

/-- The whole script: font selection happens at import time, before the
directory is created or any code is generated; if it exits, nothing else
runs.  A script that runs to completion exits with status 0. -/
def full_program (arial_ok default_ok : Bool) (numCodes : Nat)
    (choices : Nat → Nat → Fin characters.length) (raises : String → Bool)
    (m : Metrics) (fuel : Nat) (fs0 : FS) : ProgramOutcome :=
  match font_startup arial_ok default_ok with
  | StartupResult.exited s => ProgramOutcome.abortedAtStartup s
  | _ =>
      match runMain numCodes choices raises m fuel fs0 with
      | some r => ProgramOutcome.completed 0 r
      | none => ProgramOutcome.diverged

/-! ## Concrete witnesses used to instantiate the theorems -/

/-- Fixed measurements: a version-1 QR code with box size 10 and border 4
is (21 + 2*4) * 10 = 290 pixels square; a 5-character string at font size
25 measures 58 x 18 pixels.  Any fixed values would do. -/
def trivMetrics : Metrics := ⟨fun _ => (290, 290), fun _ => (58, 18)⟩

def noRaises : String → Bool := fun _ => false

def charIdx (i : Nat) : Fin characters.length :=
  ⟨i % characters.length, Nat.mod_lt _ characters_length_pos⟩

/-- Random stream whose iteration `i` picks character `i` of the alphabet at
every position: successive samples are "AAAAA", "BBBBB", "CCCCC", ... -/
def seqChoices : Nat → Nat → Fin characters.length := fun i _ => charIdx i

/-- Random stream that always picks the first character: every sample is
"AAAAA". -/
def constChoices : Nat → Nat → Fin characters.length := fun _ _ => charIdx 0

def emptyFS : FS := ⟨∅, []⟩

def emptyRunResult : RunResult := ⟨⟨∅, emptyFS, []⟩, 0⟩

/-- The string sampled by the constant stream. -/
def constStr : String := generate_random_string STRING_LENGTH (fun _ => charIdx 0)

/-! ## Basic lemmas about the loop -/

/-- The safety-break condition of source line 120 is unsatisfiable: no
natural number is both greater than `numCodes * 2` and less than
`numCodes`. -/
lemma safety_break_never (numCodes card : Nat) :
    safety_break_condition numCodes card = false := by
  simp only [safety_break_condition, Bool.and_eq_false_iff, decide_eq_false_iff_not]
  omega

/-- Unfolding one iteration of the loop; since the safety break can never
fire, an iteration either recurses on the updated state or exits. -/
lemma mainLoopFull_succ_eq (numCodes : Nat) (choices : Nat → Nat → Fin characters.length)
    (raises : String → Bool) (m : Metrics) (fuel i : Nat) (st : LoopState) :
    mainLoopFull numCodes choices raises m (fuel + 1) i st =
      if st.generated_strings.card < numCodes then
        mainLoopFull numCodes choices raises m fuel (i + 1) (loop_body choices raises m i st)
      else some st := by
  rw [mainLoopFull]
  simp [safety_break_never]

/-- The loop body always leaves the set equal to the insertion of the
sampled string (inserting an already-present element is a no-op). -/
lemma loop_body_gen (choices : Nat → Nat → Fin characters.length) (raises : String → Bool)
    (m : Metrics) (i : Nat) (st : LoopState) :
    (loop_body choices raises m i st).generated_strings =
      insert (generate_random_string STRING_LENGTH (choices i)) st.generated_strings := by
  simp only [loop_body]
  split
  · next h => exact (Finset.insert_eq_self.mpr h).symm
  · rfl

/-- `create_qr_with_title` writes and returns a layout exactly when no
exception is raised, and that layout is determined by the measurements. -/
lemma create_opt (m : Metrics) (raises : String → Bool) (s p : String) (fs : FS) :
    (create_qr_with_title m raises s p fs).2.1 =
      if raises s then none else some (layout_of m s) := by
  have hb : create_body m raises s =
      if raises s then Except.error "exception while encoding, composing or saving"
      else Except.ok (layout_of m s) := rfl
  unfold create_qr_with_title
  rw [hb]
  cases hr : raises s <;> simp [hr]

/-- A layout returned by `create_qr_with_title` is the deterministic layout
of the data string under the measurements. -/
lemma create_some_layout (m : Metrics) (raises : String → Bool) (s p : String) (fs : FS)
    (l : Layout) (h : (create_qr_with_title m raises s p fs).2.1 = some l) :
    l = layout_of m s := by
  rw [create_opt] at h
  cases hr : raises s
  · rw [hr] at h
    simp at h
    exact h.symm
  · rw [hr] at h
    simp at h

/-- The per-item composer never emits a directory-creation event. -/
lemma create_no_mkdir (m : Metrics) (raises : String → Bool) (s p : String) (fs : FS) :
    ∀ e ∈ (create_qr_with_title m raises s p fs).2.2, is_mkdir_event e = false := by
  unfold create_qr_with_title
  cases hcb : create_body m raises s <;> simp [is_mkdir_event]

/-- The loop body only appends to the trace, and never a mkdir event. -/
lemma loop_body_trace (choices : Nat → Nat → Fin characters.length) (raises : String → Bool)
    (m : Metrics) (i : Nat) (st : LoopState) :
    ∃ ext, (loop_body choices raises m i st).trace = st.trace ++ ext ∧
      ∀ e ∈ ext, is_mkdir_event e = false := by
  simp only [loop_body]
  split
  · exact ⟨[], by simp, by simp⟩
  · exact ⟨_, rfl, create_no_mkdir _ _ _ _ _⟩

/-- If the set never holds more than `numCodes` strings on entry, then on
any exit of the loop it holds exactly `numCodes` strings: the safety break
is dead, so the only exit is the failure of the `while` condition. -/
lemma loop_card_exit (numCodes : Nat) (choices : Nat → Nat → Fin characters.length)
    (raises : String → Bool) (m : Metrics) :
    ∀ fuel i st stOut, st.generated_strings.card ≤ numCodes →
      mainLoopFull numCodes choices raises m fuel i st = some stOut →
      stOut.generated_strings.card = numCodes := by
  intro fuel
  induction fuel with
  | zero => intro i st stOut _ h; exact absurd h (by simp [mainLoopFull])
  | succ fuel ih =>
    intro i st stOut hle h
    rw [mainLoopFull_succ_eq] at h
    by_cases hlt : st.generated_strings.card < numCodes
    · rw [if_pos hlt] at h
      refine ih (i + 1) _ stOut ?_ h
      rw [loop_body_gen]
      have := Finset.card_insert_le
        (generate_random_string STRING_LENGTH (choices i)) st.generated_strings
      omega
    · rw [if_neg hlt] at h
      cases h
      omega

/-- Codes valid on entry stay valid: every string the loop ever adds comes
from `generate_random_string`. -/
lemma loop_valid_exit (numCodes : Nat) (choices : Nat → Nat → Fin characters.length)
    (raises : String → Bool) (m : Metrics) :
    ∀ fuel i st stOut,
      (∀ x ∈ st.generated_strings, x.length = STRING_LENGTH ∧ ∀ ch ∈ x.data, ch ∈ characters) →
      mainLoopFull numCodes choices raises m fuel i st = some stOut →
      ∀ x ∈ stOut.generated_strings,
        x.length = STRING_LENGTH ∧ ∀ ch ∈ x.data, ch ∈ characters := by
  intro fuel
  induction fuel with
  | zero => intro i st stOut _ h; exact absurd h (by simp [mainLoopFull])
  | succ fuel ih =>
    intro i st stOut hv h
    rw [mainLoopFull_succ_eq] at h
    by_cases hlt : st.generated_strings.card < numCodes
    · rw [if_pos hlt] at h
      refine ih (i + 1) _ stOut ?_ h
      intro x hx
      rw [loop_body_gen] at hx
      rcases Finset.mem_insert.mp hx with hx | hx
      · subst hx
        exact generate_random_string_valid STRING_LENGTH (choices i)
      · exact hv x hx
    · rw [if_neg hlt] at h
      cases h
      exact hv

/-- On exit the trace is the entry trace plus appended events, none of
which is a mkdir. -/
lemma loop_trace_exit (numCodes : Nat) (choices : Nat → Nat → Fin characters.length)
    (raises : String → Bool) (m : Metrics) :
    ∀ fuel i st stOut, mainLoopFull numCodes choices raises m fuel i st = some stOut →
      ∃ ext, stOut.trace = st.trace ++ ext ∧ ∀ e ∈ ext, is_mkdir_event e = false := by
  intro fuel
  induction fuel with
  | zero => intro i st stOut h; exact absurd h (by simp [mainLoopFull])
  | succ fuel ih =>
    intro i st stOut h
    rw [mainLoopFull_succ_eq] at h
    by_cases hlt : st.generated_strings.card < numCodes
    · rw [if_pos hlt] at h
      obtain ⟨ext2, h2, hm2⟩ := ih (i + 1) _ stOut h
      obtain ⟨ext1, h1, hm1⟩ := loop_body_trace choices raises m i st
      refine ⟨ext1 ++ ext2, ?_, ?_⟩
      · rw [h2, h1, List.append_assoc]
      · intro e he
        rcases List.mem_append.mp he with he | he
        · exact hm1 e he
        · exact hm2 e he
    · rw [if_neg hlt] at h
      cases h
      exact ⟨[], by simp, by simp⟩

/-- The evolution of the set of generated strings (and hence whether the
loop exits) does not depend on which items raise exceptions. -/
lemma loop_gen_indep (numCodes : Nat) (choices : Nat → Nat → Fin characters.length)
    (m : Metrics) (raises1 raises2 : String → Bool) :
    ∀ fuel i st1 st2, st1.generated_strings = st2.generated_strings →
      (mainLoopFull numCodes choices raises1 m fuel i st1).map LoopState.generated_strings =
      (mainLoopFull numCodes choices raises2 m fuel i st2).map LoopState.generated_strings := by
  intro fuel
  induction fuel with
  | zero => intro i st1 st2 _; simp [mainLoopFull]
  | succ fuel ih =>
    intro i st1 st2 hg
    rw [mainLoopFull_succ_eq, mainLoopFull_succ_eq, hg]
    by_cases hlt : st2.generated_strings.card < numCodes
    · rw [if_pos hlt, if_pos hlt]
      exact ih (i + 1) _ _ (by rw [loop_body_gen, loop_body_gen, hg])
    · rw [if_neg hlt, if_neg hlt]
      simp only [Option.map_some']
      exact congrArg some hg

lemma loop_isSome_indep (numCodes : Nat) (choices : Nat → Nat → Fin characters.length)
    (m : Metrics) (raises1 raises2 : String → Bool) (fuel i : Nat) (st : LoopState) :
    (mainLoopFull numCodes choices raises1 m fuel i st).isSome =
    (mainLoopFull numCodes choices raises2 m fuel i st).isSome := by
  have h := loop_gen_indep numCodes choices m raises1 raises2 fuel i st st rfl
  cases h1 : mainLoopFull numCodes choices raises1 m fuel i st <;>
    cases h2 : mainLoopFull numCodes choices raises2 m fuel i st <;>
      rw [h1, h2] at h <;> simp_all

lemma runMain_isSome_eq (numCodes : Nat) (choices : Nat → Nat → Fin characters.length)
    (raises : String → Bool) (m : Metrics) (fuel : Nat) (fs0 : FS) :
    (runMain numCodes choices raises m fuel fs0).isSome =
    (mainLoopFull numCodes choices raises m fuel 0 (init_state numCodes fs0)).isSome := by
  unfold runMain
  cases h : mainLoopFull numCodes choices raises m fuel 0 (init_state numCodes fs0) <;> simp

/-- Destructing a successful run into its final loop state. -/
lemma runMain_some_elim (numCodes : Nat) (choices : Nat → Nat → Fin characters.length)
    (raises : String → Bool) (m : Metrics) (fuel : Nat) (fs0 : FS) (res : RunResult)
    (h : runMain numCodes choices raises m fuel fs0 = some res) :
    ∃ st, mainLoopFull numCodes choices raises m fuel 0 (init_state numCodes fs0) = some st ∧
      res.state.generated_strings = st.generated_strings ∧
      res.summary = st.generated_strings.card ∧
      res.state.trace = st.trace ++
        [Event.print ("Finished generating " ++ toString st.generated_strings.card ++
          " QR codes.")] := by
  unfold runMain at h
  cases hm : mainLoopFull numCodes choices raises m fuel 0 (init_state numCodes fs0) with
  | none => rw [hm] at h; cases h
  | some st =>
      rw [hm] at h
      cases h
      exact ⟨st, rfl, rfl, rfl, rfl⟩

/-! ## Claim C2: the safety break -/

/-- On a random stream that keeps producing the same string, a loop state
whose set is contained in the singleton of that string never exits. -/
lemma const_loop_none :
    ∀ fuel i st, st.generated_strings ⊆ {constStr} →
      mainLoopFull NUM_CODES constChoices noRaises trivMetrics fuel i st = none := by
  intro fuel
  induction fuel with
  | zero => intro i st _; rfl
  | succ fuel ih =>
    intro i st hsub
    rw [mainLoopFull_succ_eq]
    have hcard : st.generated_strings.card ≤ 1 := by
      have := Finset.card_le_card hsub
      simpa using this
    rw [if_pos (by simp only [NUM_CODES]; omega)]
    apply ih
    rw [loop_body_gen]
    have hc : generate_random_string STRING_LENGTH (constChoices i) = constStr := rfl
    rw [hc]
    exact Finset.insert_subset_iff.mpr ⟨Finset.mem_singleton_self _, hsub⟩

/-- C2: the claim is false of the code and true of its intent.  The
safety-break condition `len > NUM_CODES * 2 and len < NUM_CODES` (source
line 120) is unsatisfiable, hence dead code: the break can never fire.
Consequently the loop does NOT always terminate: on the realizable random
stream whose every sample is "AAAAA" (each `random.choice` returning the
first alphabet character), the run reaches neither `NUM_CODES` unique codes
nor the safety break, for any number of iterations. -/
theorem safety_break_dead_and_loop_can_diverge :
    (∀ numCodes card : Nat, safety_break_condition numCodes card = false) ∧
    (∀ fuel : Nat, ∀ fs0 : FS,
      runMain NUM_CODES constChoices noRaises trivMetrics fuel fs0 = none) := by
  refine ⟨safety_break_never, ?_⟩
  intro fuel fs0
  have h := const_loop_none fuel 0 (init_state NUM_CODES fs0) (Finset.empty_subset _)
  unfold runMain
  rw [h]

/-! ## Claim C5: canvas dimensions -/

/-- C5: the composed canvas is exactly `max(QR width, text width) + 2 *
PADDING` wide (hence at least as wide as either element plus padding on
both sides) and exactly `QR height + TEXT_PADDING_TOP + text height + 2 *
PADDING` tall, computed from the measured sizes, not hardcoded (source
lines 76-78). -/
theorem canvas_dimensions_from_measurements (qr_width qr_height text_width text_height : Nat) :
    (compose_layout qr_width qr_height text_width text_height).total_width =
      max qr_width text_width + 2 * PADDING ∧
    qr_width + 2 * PADDING ≤
      (compose_layout qr_width qr_height text_width text_height).total_width ∧
    text_width + 2 * PADDING ≤
      (compose_layout qr_width qr_height text_width text_height).total_width ∧
    (compose_layout qr_width qr_height text_width text_height).total_height =
      qr_height + TEXT_PADDING_TOP + text_height + 2 * PADDING ∧
    ∀ (m : Metrics) (s : String), layout_of m s =
      compose_layout (m.qrSize s).1 (m.qrSize s).2 (m.textSize s).1 (m.textSize s).2 := by
  refine ⟨rfl, ?_, ?_, rfl, fun _ _ => rfl⟩
  · have h := Nat.le_max_left qr_width text_width
    show qr_width + 2 * PADDING ≤ max qr_width text_width + 2 * PADDING
    omega
  · have h := Nat.le_max_right qr_width text_width
    show text_width + 2 * PADDING ≤ max qr_width text_width + 2 * PADDING
    omega

/-! ## Claim C10: both pasted elements fit inside the canvas -/

/-- C10: for every measured QR size and every (non-negative) measured text
size, the QR paste origin is `(qr_x, PADDING)` with the QR fully inside the
canvas, the text start column keeps the text inside the canvas, and the
text baseline row satisfies `text_y + text_height = total_height - PADDING`
exactly (source lines 76-92).  In this `Nat` embedding `qr_x` and `text_x`
are non-negative by construction; the content behind the Python claim
`qr_x >= 0` is `qr_width <= total_width` (no underflow), which is part of
what is proved here. -/
theorem pasted_elements_fit_within_canvas (qw qh tw th : Nat) :
    (compose_layout qw qh tw th).qr_y = PADDING ∧
    (compose_layout qw qh tw th).qr_x + qw ≤ (compose_layout qw qh tw th).total_width ∧
    (compose_layout qw qh tw th).qr_y + qh ≤ (compose_layout qw qh tw th).total_height ∧
    (compose_layout qw qh tw th).text_x + tw ≤ (compose_layout qw qh tw th).total_width ∧
    (compose_layout qw qh tw th).text_y + th + PADDING =
      (compose_layout qw qh tw th).total_height ∧
    (compose_layout qw qh tw th).text_y + th =
      (compose_layout qw qh tw th).total_height - PADDING := by
  have h1 := Nat.le_max_left qw tw
  have h2 := Nat.le_max_right qw tw
  refine ⟨rfl, ?_, ?_, ?_, ?_, ?_⟩
  · show (max qw tw + 2 * PADDING - qw) / 2 + qw ≤ max qw tw + 2 * PADDING
    omega
  · show PADDING + qh ≤ qh + TEXT_PADDING_TOP + th + 2 * PADDING
    omega
  · show (max qw tw + 2 * PADDING - tw) / 2 + tw ≤ max qw tw + 2 * PADDING
    omega
  · show PADDING + qh + TEXT_PADDING_TOP + th + PADDING =
      qh + TEXT_PADDING_TOP + th + 2 * PADDING
    omega
  · show PADDING + qh + TEXT_PADDING_TOP + th =
      qh + TEXT_PADDING_TOP + th + 2 * PADDING - PADDING
    omega

/-! ## Claim C7: output filenames -/

/-- C7: filenames are `<code>.png` inside the output directory.  The
sanitization of source line 116 replaces every non-alphanumeric character
by an underscore; on a code drawn from the A-Z, 0-9 alphabet it is the
identity, so the written path is exactly
`qr_codes_with_titles/<code>.png` (`IMAGE_FORMAT.lower()` is "png"). -/
theorem filename_is_code_dot_png (code : String)
    (h : ∀ ch ∈ code.data, ch ∈ characters) :
    sanitize code = code ∧
    output_path code = OUTPUT_DIR ++ "/" ++ code ++ "." ++ "png" := by
  have hs : sanitize code = code := by
    unfold sanitize
    have hmap : code.data.map (fun c => if c.isAlphanum then c else '_') = code.data := by
      have hid : ∀ a ∈ code.data, (fun c => if c.isAlphanum then c else '_') a = a := by
        intro a ha
        simp [characters_alnum a (h a ha)]
      calc code.data.map (fun c => if c.isAlphanum then c else '_')
          = code.data.map id := List.map_congr_left hid
        _ = code.data := List.map_id code.data
    rw [hmap]
  refine ⟨hs, ?_⟩
  unfold output_path
  rw [hs]
  have hl : str_lower IMAGE_FORMAT = "png" := by decide
  rw [hl]

/-- C7 witness: the concrete code "AB12Z" is over the alphabet, keeps its
name under sanitization, and is written to `qr_codes_with_titles/AB12Z.png`. -/
theorem filename_is_code_dot_png_witness :
    (∀ ch ∈ ("AB12Z" : String).data, ch ∈ characters) ∧
    (sanitize "AB12Z" = "AB12Z" ∧
     output_path "AB12Z" = OUTPUT_DIR ++ "/" ++ "AB12Z" ++ "." ++ "png") :=
  ⟨by decide, filename_is_code_dot_png "AB12Z" (by decide)⟩

/-! ## Claim C8: determinism of the composed dimensions -/

/-- C8: composing the same code twice under the same configuration (the
same measurement functions, i.e. the same font and QR settings) yields the
same layout, in particular identical width and height: the layout is a
deterministic function of the code and the configuration (source lines
47-95). -/
theorem composer_layout_deterministic (m : Metrics) (raises1 raises2 : String → Bool)
    (code p1 p2 : String) (fs1 fs2 : FS) (l1 l2 : Layout)
    (h1 : (create_qr_with_title m raises1 code p1 fs1).2.1 = some l1)
    (h2 : (create_qr_with_title m raises2 code p2 fs2).2.1 = some l2) :
    l1 = l2 ∧ l1.total_width = l2.total_width ∧ l1.total_height = l2.total_height := by
  have e1 := create_some_layout m raises1 code p1 fs1 l1 h1
  have e2 := create_some_layout m raises2 code p2 fs2 l2 h2
  subst e1
  subst e2
  exact ⟨rfl, rfl, rfl⟩

def wLayout : Layout := layout_of trivMetrics "AAAAA"

/-- C8 witness: two concrete successful compositions of "AAAAA" under the
same measurements return the same layout. -/
theorem composer_layout_deterministic_witness :
    ((create_qr_with_title trivMetrics noRaises "AAAAA" "a" emptyFS).2.1 = some wLayout) ∧
    ((create_qr_with_title trivMetrics noRaises "AAAAA" "b" emptyFS).2.1 = some wLayout) ∧
    (wLayout = wLayout ∧ wLayout.total_width = wLayout.total_width ∧
      wLayout.total_height = wLayout.total_height) :=
  ⟨rfl, rfl, composer_layout_deterministic trivMetrics noRaises noRaises "AAAAA" "a" "b"
    emptyFS emptyFS wLayout wLayout rfl rfl⟩

/-! ## Claim C1: the run produces exactly N distinct valid codes -/

/-- C1: on any terminating run (for any randomness, any per-item failures,
any measurements and any requested count up to the alphabet capacity), the
set of generated strings has exactly `numCodes` elements — a `Finset`, so
no two of them are equal — and every element is exactly `STRING_LENGTH`
characters long with every character drawn from the A-Z, 0-9 alphabet
(source lines 42-45 and 109-118). -/
theorem run_produces_exactly_n_valid_distinct_codes
    (numCodes : Nat) (choices : Nat → Nat → Fin characters.length)
    (raises : String → Bool) (m : Metrics) (fuel : Nat) (fs0 : FS)
    (_hN : numCodes ≤ characters.length ^ STRING_LENGTH)
    (hrun : (runMain numCodes choices raises m fuel fs0).isSome = true) :
    ((runMain numCodes choices raises m fuel
        fs0).getD emptyRunResult).state.generated_strings.card = numCodes ∧
    ∀ x ∈ ((runMain numCodes choices raises m fuel
        fs0).getD emptyRunResult).state.generated_strings,
      x.length = STRING_LENGTH ∧ ∀ ch ∈ x.data, ch ∈ characters := by
  obtain ⟨res, hres⟩ := Option.isSome_iff_exists.mp hrun
  rw [hres, Option.getD_some]
  obtain ⟨st, hm, hgen, hsum, htr⟩ :=
    runMain_some_elim numCodes choices raises m fuel fs0 res hres
  constructor
  · rw [hgen]
    exact loop_card_exit numCodes choices raises m fuel 0 _ st (by simp [init_state]) hm
  · rw [hgen]
    exact loop_valid_exit numCodes choices raises m fuel 0 _ st (by simp [init_state]) hm

/-- C1 witness: a concrete terminating run requesting 3 codes over the
stream "AAAAA", "BBBBB", "CCCCC", ... -/
theorem run_produces_exactly_n_valid_distinct_codes_witness :
    (3 ≤ characters.length ^ STRING_LENGTH) ∧
    ((runMain 3 seqChoices noRaises trivMetrics 4 emptyFS).isSome = true) ∧
    (((runMain 3 seqChoices noRaises trivMetrics 4
        emptyFS).getD emptyRunResult).state.generated_strings.card = 3 ∧
      ∀ x ∈ ((runMain 3 seqChoices noRaises trivMetrics 4
          emptyFS).getD emptyRunResult).state.generated_strings,
        x.length = STRING_LENGTH ∧ ∀ ch ∈ x.data, ch ∈ characters) :=
  ⟨by decide, by decide,
    run_produces_exactly_n_valid_distinct_codes 3 seqChoices noRaises trivMetrics 4 emptyFS
      (by decide) (by decide)⟩

/-! ## Claim C3: failed writes and the final summary -/

/-- Failure oracle making exactly the save of "BBBBB" fail (an unwritable
path, say). -/
def failsB : String → Bool := fun s => s == "BBBBB"

/-- C3 counterexample: a concrete run requesting 2 codes in which the write
of the second code fails.  Only 1 image is written, yet the final summary
line reports `len(generated_strings)` = 2, the requested count — not the
count of successfully written images, and not a number strictly less than
the requested count.  This refutes the claim that the summary reports the
number of successfully written images. -/
theorem summary_reports_generated_not_written_cex :
    ((runMain 2 seqChoices failsB trivMetrics 3 emptyFS).getD emptyRunResult).summary = 2 ∧
    successful_writes
      ((runMain 2 seqChoices failsB trivMetrics 3 emptyFS).getD emptyRunResult) = 1 ∧
    ¬(((runMain 2 seqChoices failsB trivMetrics 3 emptyFS).getD
        emptyRunResult).summary < 2) := by
  refine ⟨by decide, by decide, by decide⟩

/-- C3 amended: when some per-item image writes fail, the run does still
complete (whether the loop exits is independent of the failure oracle), but
the final summary line reports the number of generated codes — the
requested count — regardless of how many images were actually written
(source line 125 prints `len(generated_strings)`). -/
theorem run_completes_and_summary_reports_generated_count
    (numCodes : Nat) (choices : Nat → Nat → Fin characters.length)
    (raises : String → Bool) (m : Metrics) (fuel : Nat) (fs0 : FS)
    (hrun : (runMain numCodes choices raises m fuel fs0).isSome = true) :
    ((runMain numCodes choices raises m fuel fs0).getD emptyRunResult).summary = numCodes ∧
    ∀ raisesB : String → Bool,
      (runMain numCodes choices raisesB m fuel fs0).isSome = true := by
  constructor
  · obtain ⟨res, hres⟩ := Option.isSome_iff_exists.mp hrun
    rw [hres, Option.getD_some]
    obtain ⟨st, hm, hgen, hsum, htr⟩ :=
      runMain_some_elim numCodes choices raises m fuel fs0 res hres
    rw [hsum]
    exact loop_card_exit numCodes choices raises m fuel 0 _ st (by simp [init_state]) hm
  · intro raisesB
    rw [runMain_isSome_eq]
    rw [runMain_isSome_eq] at hrun
    rw [loop_isSome_indep numCodes choices m raisesB raises fuel 0 (init_state numCodes fs0)]
    exact hrun

/-- C3 amended witness: the same concrete failing run as the
counterexample: it completes, reports 2, and completes under any failure
oracle. -/
theorem run_completes_and_summary_reports_generated_count_witness :
    ((runMain 2 seqChoices failsB trivMetrics 3 emptyFS).isSome = true) ∧
    (((runMain 2 seqChoices failsB trivMetrics 3 emptyFS).getD emptyRunResult).summary = 2 ∧
     ∀ raisesB : String → Bool,
       (runMain 2 seqChoices raisesB trivMetrics 3 emptyFS).isSome = true) :=
  ⟨by decide,
    run_completes_and_summary_reports_generated_count 2 seqChoices failsB trivMetrics 3 emptyFS
      (by decide)⟩

/-! ## Claim C4: startup abort and exit status -/

/-- C4 counterexample: when neither font loads, the program does abort at
startup, before any directory creation or code generation — but via the
`exit()` builtin, whose default `SystemExit(None)` makes the interpreter
exit with status 0, not a non-zero status as claimed. -/
theorem abort_on_font_failure_has_exit_status_zero_cex :
    full_program false false NUM_CODES seqChoices noRaises trivMetrics 4 emptyFS =
      ProgramOutcome.abortedAtStartup exit_builtin_status ∧
    exit_builtin_status = 0 :=
  ⟨rfl, rfl⟩

/-- C4 amended: the program aborts at startup — before generating any codes
or creating any output — if and only if neither the preferred font nor the
built-in fallback loads; and every exit status the program can produce,
whether on that abort (via `exit()`) or on normal completion, is 0 (source
lines 26-39). -/
theorem abort_iff_no_font_and_all_exit_statuses_zero
    (arial_ok default_ok : Bool) (numCodes : Nat)
    (choices : Nat → Nat → Fin characters.length) (raises : String → Bool)
    (m : Metrics) (fuel : Nat) (fs0 : FS) :
    is_aborted (full_program arial_ok default_ok numCodes choices raises m fuel fs0) =
      (!arial_ok && !default_ok) ∧
    (full_program arial_ok default_ok numCodes choices raises m fuel fs0 =
        ProgramOutcome.abortedAtStartup 0 ∨
      (∃ rr, full_program arial_ok default_ok numCodes choices raises m fuel fs0 =
        ProgramOutcome.completed 0 rr) ∨
      full_program arial_ok default_ok numCodes choices raises m fuel fs0 =
        ProgramOutcome.diverged) := by
  cases arial_ok <;> cases default_ok
  · exact ⟨rfl, Or.inl rfl⟩
  all_goals
    constructor
  all_goals
    cases hr : runMain numCodes choices raises m fuel fs0 <;>
      simp [full_program, font_startup, is_aborted, hr]

/-! ## Claim C6: per-item exceptions are caught and isolated -/

/-- C6: every exception raised while processing a single code is caught
inside `create_qr_with_title` (the embedded composer is a total function
returning `none` exactly when the item raises, with the offending code in
its logged events), and the batch is unaffected: the loop's set of
generated codes and whether the loop exits are identical under any two
failure oracles, so a per-item failure never aborts the batch (source
lines 47-100 and 111-118). -/
theorem per_item_failure_caught_and_batch_unaffected
    (numCodes : Nat) (choices : Nat → Nat → Fin characters.length)
    (raises1 raises2 : String → Bool) (m : Metrics) (fuel i : Nat) (st : LoopState)
    (s p : String) (fs : FS) :
    ((create_qr_with_title m raises1 s p fs).2.1 =
      if raises1 s then none else some (layout_of m s)) ∧
    (mainLoopFull numCodes choices raises1 m fuel i st).map LoopState.generated_strings =
      (mainLoopFull numCodes choices raises2 m fuel i st).map LoopState.generated_strings ∧
    (mainLoopFull numCodes choices raises1 m fuel i st).isSome =
      (mainLoopFull numCodes choices raises2 m fuel i st).isSome :=
  ⟨create_opt m raises1 s p fs,
   loop_gen_indep numCodes choices m raises1 raises2 fuel i st st rfl,
   loop_isSome_indep numCodes choices m raises1 raises2 fuel i st⟩

/-! ## Claim C9: output directory creation -/

/-- C9: `os.makedirs(..., exist_ok=True)` is idempotent — on an existing
directory it is the identity on the filesystem (no error: the function is
total) and it never touches files — and in every terminating run the
directory-creation event happens exactly once, as the very first event,
before any code is generated (source lines 104-107). -/
theorem output_dir_once_upfront_idempotent
    (fs : FS) (d : String) (hd : d ∈ fs.dirs)
    (numCodes : Nat) (choices : Nat → Nat → Fin characters.length)
    (raises : String → Bool) (m : Metrics) (fuel : Nat) (fs0 : FS)
    (hrun : (runMain numCodes choices raises m fuel fs0).isSome = true) :
    makedirs_exist_ok fs d = fs ∧
    (∀ fsx : FS, ∀ dx : String,
      (makedirs_exist_ok fsx dx).files = fsx.files ∧
      fsx.dirs ⊆ (makedirs_exist_ok fsx dx).dirs) ∧
    ((runMain numCodes choices raises m fuel fs0).getD
        emptyRunResult).state.trace.head? = some (Event.mkdir OUTPUT_DIR) ∧
    ((runMain numCodes choices raises m fuel fs0).getD
        emptyRunResult).state.trace.filter is_mkdir_event = [Event.mkdir OUTPUT_DIR] := by
  obtain ⟨res, hres⟩ := Option.isSome_iff_exists.mp hrun
  rw [hres, Option.getD_some]
  obtain ⟨st, hm, hgen, hsum, htr⟩ :=
    runMain_some_elim numCodes choices raises m fuel fs0 res hres
  obtain ⟨ext, hext, hnomk⟩ := loop_trace_exit numCodes choices raises m fuel 0 _ st hm
  have hinit : (init_state numCodes fs0).trace = init_trace numCodes := rfl
  refine ⟨?_, ?_, ?_, ?_⟩
  · have he : insert d fs.dirs = fs.dirs := Finset.insert_eq_self.mpr hd
    unfold makedirs_exist_ok
    rw [he]
  · intro fsx dx
    exact ⟨rfl, Finset.subset_insert dx fsx.dirs⟩
  · rw [htr, hext, hinit]
    simp [init_trace]
  · rw [htr, hext, hinit]
    rw [List.filter_append, List.filter_append]
    have h1 : (init_trace numCodes).filter is_mkdir_event = [Event.mkdir OUTPUT_DIR] := by
      simp [init_trace, is_mkdir_event]
    have h2 : ext.filter is_mkdir_event = [] := by
      rw [List.filter_eq_nil_iff]
      intro e he
      simp [hnomk e he]
    have h3 : List.filter is_mkdir_event
        [Event.print ("Finished generating " ++ toString st.generated_strings.card ++
          " QR codes.")] = [] := by
      simp [is_mkdir_event]
    rw [h1, h2, h3]
    simp

/-- C9 witness: a concrete pre-existing directory and a concrete
terminating run. -/
theorem output_dir_once_upfront_idempotent_witness :
    (OUTPUT_DIR ∈ (⟨{OUTPUT_DIR}, []⟩ : FS).dirs) ∧
    ((runMain 3 seqChoices noRaises trivMetrics 4 emptyFS).isSome = true) ∧
    (makedirs_exist_ok ⟨{OUTPUT_DIR}, []⟩ OUTPUT_DIR = ⟨{OUTPUT_DIR}, []⟩ ∧
     (∀ fsx : FS, ∀ dx : String,
       (makedirs_exist_ok fsx dx).files = fsx.files ∧
       fsx.dirs ⊆ (makedirs_exist_ok fsx dx).dirs) ∧
     ((runMain 3 seqChoices noRaises trivMetrics 4 emptyFS).getD
         emptyRunResult).state.trace.head? = some (Event.mkdir OUTPUT_DIR) ∧
     ((runMain 3 seqChoices noRaises trivMetrics 4 emptyFS).getD
         emptyRunResult).state.trace.filter is_mkdir_event = [Event.mkdir OUTPUT_DIR]) :=
  ⟨Finset.mem_singleton_self OUTPUT_DIR, by decide,
    output_dir_once_upfront_idempotent ⟨{OUTPUT_DIR}, []⟩ OUTPUT_DIR
      (Finset.mem_singleton_self OUTPUT_DIR) 3 seqChoices noRaises trivMetrics 4 emptyFS
      (by decide)⟩
